import Mathlib

/-
Shallow embedding of the processctrl package (process.go together with the
Unix and Windows platform files). The Process struct's fields are modelled
directly; interactions with the operating system (pipe creation, spawning,
signal delivery, the race between process exit and a timeout) are supplied
as explicit environment/oracle values, so every operation is a pure function
of the handle state and that environment. Go runtime faults (nil pointer
dereference, close of a closed channel) are modelled with Except.
-/

namespace Processctrl

/-- Numeric stand-in for an underlying OS error (an errno or status code). -/
abbrev OSError := Nat

/-- Exit information of a finished process, standing in for os.ProcessState. -/
structure ProcState where
  exitCode : Int
  deriving DecidableEq, Repr

/-- The OS process bound to a command once Start succeeds (exec.Cmd.Process). -/
structure OSProcess where
  pid : Int
  deriving DecidableEq, Repr

/-- Relevant fields of exec.Cmd: the bound OS process (nil until Start
succeeds) and the cached ProcessState pointer (nil until a call to
cmd.Wait completes). -/
structure Cmd where
  process : Option OSProcess
  processState : Option ProcState
  deriving DecidableEq, Repr

/-- Runtime faults of the Go runtime that the embedding makes explicit. -/
inductive Fault where
  | nilPointerDereference
  | closeOfClosedChannel
  deriving DecidableEq, Repr

/-- Errors returned by the package, one constructor per fmt.Errorf site. -/
inductive PErr where
  | alreadyRunning
  | notRunning
  | pauseInvalidState
  | resumeInvalidState
  | stdoutPipeFailed (e : OSError)
  | stderrPipeFailed (e : OSError)
  | stdinPipeFailed (e : OSError)
  | startFailed (e : OSError)
  | sigtermFailed (e : OSError)
  | pauseSignalFailed (e : OSError)
  | resumeSignalFailed (e : OSError)
  | killFailed (e : OSError)
  deriving DecidableEq, Repr

/-- The Process struct of process.go. `cmd` is an Option because the Go field
is a nil pointer until RunWithContext assigns it. `stdoutClosed` and
`stderrClosed` record whether the two Go channels have actually been closed
(distinct from the guard flag `channelsClosed`), so that a double close can
be detected as a fault. `stdinSet` records that the stdin field is non-nil,
`stdinOpen` that the pipe behind it is still open. -/
structure Process where
  program : String
  args : List String
  cmd : Option Cmd
  stdoutClosed : Bool
  stderrClosed : Bool
  stdinSet : Bool
  stdinOpen : Bool
  paused : Bool
  running : Bool
  bufferSize : Nat
  channelsClosed : Bool
  deriving DecidableEq, Repr

/-- One second, in milliseconds (time.Second of the model). -/
def second : Nat := 1000

/-- defaultKillTimeout = 5 * time.Second from process.go. -/
def defaultKillTimeout : Nat := 5 * second

/-- NewWithBuffer creates a Process with the given channel buffer size; every
flag starts at its zero value and cmd is nil. -/
def NewWithBuffer (bufferSize : Nat) (program : String) (args : List String) : Process :=
  { program := program
    args := args
    cmd := none
    stdoutClosed := false
    stderrClosed := false
    stdinSet := false
    stdinOpen := false
    paused := false
    running := false
    bufferSize := bufferSize
    channelsClosed := false }

/-- New creates a Process with unbuffered channels: NewWithBuffer 0. -/
def New (program : String) (args : List String) : Process :=
  NewWithBuffer 0 program args

/-- IsRunning: lock-protected read of the running flag. -/
def IsRunning (p : Process) : Bool := p.running

/-- IsPaused: lock-protected read of the paused flag. -/
def IsPaused (p : Process) : Bool := p.paused

/-- PID from process.go. The Go code evaluates p.cmd.Process; when p.cmd is
nil (the handle was never started) this dereferences a nil pointer, which the
embedding reports as a fault. When cmd is bound, it returns the process id if
an OS process is attached and -1 otherwise. -/
def PID (p : Process) : Except Fault Int :=
  match p.cmd with
  | none => .error .nilPointerDereference
  | some c =>
    match c.process with
    | some pr => .ok pr.pid
    | none => .ok (-1)

/-- The possible outcomes of Wait: the not-running error, or completion with
the process-state value and the error that cmd.Wait returned. -/
inductive WaitOutcome where
  | notRunningErr
  | completed (st : Option ProcState) (waitErr : Option OSError)
  deriving DecidableEq, Repr

/-- Wait from process.go. It snapshots cmd and running under the read lock,
fails when not running, and otherwise executes `return cmd.ProcessState,
cmd.Wait()`: Go evaluates the return operands left to right, so the returned
process-state value is the field's content BEFORE cmd.Wait runs (nil unless
some earlier cmd.Wait already completed), while `waitErr` is what the blocking
cmd.Wait call then returns. -/
def Wait (p : Process) (waitErr : Option OSError) : Except Fault WaitOutcome :=
  if !p.running then .ok .notRunningErr
  else
    match p.cmd with
    | none => .error .nilPointerDereference
    | some c => .ok (.completed c.processState waitErr)

/-- Environment for RunWithContext: whether each pipe creation and the Start
call fail, and the pid the OS assigns on success. -/
structure StartEnv where
  stdoutPipeErr : Option OSError
  stderrPipeErr : Option OSError
  stdinPipeErr : Option OSError
  startErr : Option OSError
  newPid : Int
  deriving DecidableEq, Repr

/-- Result of RunWithContext: the updated handle, the returned error, and
whether an OS process was actually spawned. -/
structure StartResult where
  proc : Process
  err : Option PErr
  spawned : Bool
  deriving DecidableEq, Repr

/-- The cmd value freshly assigned by exec.CommandContext: no OS process
bound yet, no cached state. -/
def cmdFresh : Cmd := { process := none, processState := none }

/-- RunWithContext from process.go. Under the lock: reject when already
running (before any mutation); otherwise assign a fresh cmd, create the three
pipes, start the process, and on success set running := true. Failure paths
after cmd is assigned leave the fresh cmd in place, mirroring the Go code. -/
def RunWithContext (p : Process) (env : StartEnv) : StartResult :=
  if p.running then
    { proc := p, err := some .alreadyRunning, spawned := false }
  else
    match env.stdoutPipeErr with
    | some e =>
      { proc := { p with cmd := some cmdFresh }, err := some (.stdoutPipeFailed e), spawned := false }
    | none =>
      match env.stderrPipeErr with
      | some e =>
        { proc := { p with cmd := some cmdFresh }, err := some (.stderrPipeFailed e), spawned := false }
      | none =>
        match env.stdinPipeErr with
        | some e =>
          { proc := { p with cmd := some cmdFresh }, err := some (.stdinPipeFailed e), spawned := false }
        | none =>
          match env.startErr with
          | some e =>
            { proc := { p with cmd := some cmdFresh, stdinSet := true, stdinOpen := false },
              err := some (.startFailed e), spawned := false }
          | none =>
            { proc := { p with
                cmd := some { process := some { pid := env.newPid }, processState := none },
                stdinSet := true, stdinOpen := true, running := true },
              err := none, spawned := true }

/-- closeChannels from process.go: when the guard flag is unset, close both
channels (a fault if either Go channel is already closed) and record the
closure; otherwise do nothing. -/
def closeChannels (p : Process) : Except Fault Process :=
  if !p.channelsClosed then
    if p.stdoutClosed then .error .closeOfClosedChannel
    else if p.stderrClosed then .error .closeOfClosedChannel
    else .ok { p with stdoutClosed := true, stderrClosed := true, channelsClosed := true }
  else .ok p

/-- Iterated closeChannels: n successive invocations of the cleanup. -/
def closeN : Nat → Process → Except Fault Process
  | 0, p => .ok p
  | n + 1, p => (closeChannels p).bind (closeN n)

/-- The completion watcher's deferred cleanup in RunWithContext: under the
lock set running := false, paused := false and close stdin if it is set; then
(outside the lock) call closeChannels. -/
def watcherCleanup (p : Process) : Except Fault Process :=
  closeChannels
    { p with running := false, paused := false,
             stdinOpen := if p.stdinSet then false else p.stdinOpen }

/-- Pause from the Unix platform file: reject unless running and not paused;
send SIGSTOP (failure reported, state unchanged); on success set paused. -/
def Pause (p : Process) (sigErr : Option OSError) : Process × Option PErr :=
  if !p.running || p.paused then (p, some .pauseInvalidState)
  else
    match sigErr with
    | some e => (p, some (.pauseSignalFailed e))
    | none => ({ p with paused := true }, none)

/-- Resume from the Unix platform file: reject unless running and paused;
send SIGCONT (failure reported, state unchanged); on success clear paused. -/
def Resume (p : Process) (sigErr : Option OSError) : Process × Option PErr :=
  if !p.running || !p.paused then (p, some .resumeInvalidState)
  else
    match sigErr with
    | some e => (p, some (.resumeSignalFailed e))
    | none => ({ p with paused := false }, none)

/-- Environment for the Unix killWithSignal: whether the SIGTERM send fails,
whether the process exits before the timeout fires (the outcome of the
select race), and whether the final Process.Kill fails. -/
structure KillEnv where
  sigtermErr : Option OSError
  exitsWithinTimeout : Bool
  killErr : Option OSError
  deriving DecidableEq, Repr

/-- Result of a termination call: the updated handle, the returned error, and
whether a graceful stop was delivered and a forceful kill issued. -/
structure KillResult where
  proc : Process
  err : Option PErr
  gracefulStopDelivered : Bool
  forceKillIssued : Bool
  deriving DecidableEq, Repr

/-- The force-kill tail shared by both branches of killWithSignal: on Kill
success clear running and paused; on failure return the error with the state
untouched. -/
def forceKillStep (p : Process) (killErr : Option OSError) (g : Bool) : KillResult :=
  match killErr with
  | some e =>
    { proc := p, err := some (.killFailed e), gracefulStopDelivered := g, forceKillIssued := true }
  | none =>
    { proc := { p with running := false, paused := false }, err := none,
      gracefulStopDelivered := g, forceKillIssued := true }

/-- killWithSignal from the Unix platform file. Reject when not running. When
graceful: send SIGTERM (a send failure is returned with state untouched),
then race process exit against the timeout; if the process exits first, clear
running and paused and return success without force-killing; on timeout fall
through. The fall-through and the non-graceful path force-kill immediately. -/
def killWithSignal (p : Process) (timeout : Nat) (graceful : Bool) (env : KillEnv) : KillResult :=
  if !p.running then
    { proc := p, err := some .notRunning, gracefulStopDelivered := false, forceKillIssued := false }
  else
    if graceful then
      match env.sigtermErr with
      | some e =>
        { proc := p, err := some (.sigtermFailed e), gracefulStopDelivered := false,
          forceKillIssued := false }
      | none =>
        if env.exitsWithinTimeout then
          { proc := { p with running := false, paused := false }, err := none,
            gracefulStopDelivered := true, forceKillIssued := false }
        else
          forceKillStep p env.killErr true
    else
      forceKillStep p env.killErr false

/-- Kill from process.go: killWithSignal with the default timeout, graceful. -/
def Kill (p : Process) (env : KillEnv) : KillResult :=
  killWithSignal p defaultKillTimeout true env

/-- KillWithTimeout from process.go: killWithSignal with the caller's
timeout and graceful = false. -/
def KillWithTimeout (p : Process) (timeout : Nat) (env : KillEnv) : KillResult :=
  killWithSignal p timeout false env

/-- Terminate from process.go: killWithSignal with the default timeout,
graceful — identical to Kill. -/
def Terminate (p : Process) (env : KillEnv) : KillResult :=
  killWithSignal p defaultKillTimeout true env

/-- Environment for the Windows killWithSignal: whether the
OpenProcess(PROCESS_TERMINATE) call fails, whether TerminateProcess fails
(both tolerated by the code), the exit-versus-timeout race outcome, and
whether the final Kill fails. -/
structure WinKillEnv where
  openTerminateErr : Option OSError
  terminateErr : Option OSError
  exitsWithinTimeout : Bool
  killErr : Option OSError
  deriving DecidableEq, Repr

/-- killWithSignal from the Windows platform file. Reject when not running.
When graceful: best-effort open the process and call TerminateProcess,
IGNORING any failure of either; then race exit against the timeout exactly
as on Unix. The gentle terminate is delivered only if the open succeeded. -/
def killWithSignalWindows (p : Process) (timeout : Nat) (graceful : Bool)
    (env : WinKillEnv) : KillResult :=
  if !p.running then
    { proc := p, err := some .notRunning, gracefulStopDelivered := false, forceKillIssued := false }
  else
    if graceful then
      if env.exitsWithinTimeout then
        { proc := { p with running := false, paused := false }, err := none,
          gracefulStopDelivered := env.openTerminateErr.isNone, forceKillIssued := false }
      else
        forceKillStep p env.killErr env.openTerminateErr.isNone
    else
      forceKillStep p env.killErr false

/-- One step of the handle's state under any public operation or the
completion watcher's cleanup, with the OS environment chosen arbitrarily. -/
inductive Step : Process → Process → Prop where
  | runStep : ∀ (p : Process) (env : StartEnv), Step p (RunWithContext p env).proc
  | pauseStep : ∀ (p : Process) (e : Option OSError), Step p (Pause p e).1
  | resumeStep : ∀ (p : Process) (e : Option OSError), Step p (Resume p e).1
  | killStep : ∀ (p : Process) (t : Nat) (g : Bool) (env : KillEnv),
      Step p (killWithSignal p t g env).proc
  | killStepWin : ∀ (p : Process) (t : Nat) (g : Bool) (env : WinKillEnv),
      Step p (killWithSignalWindows p t g env).proc
  | watcherStep : ∀ (p q : Process), watcherCleanup p = .ok q → Step p q
  | closeStep : ∀ (p q : Process), closeChannels p = .ok q → Step p q

/-- States reachable from a freshly constructed handle by any number of
steps. -/
inductive Reachable : Process → Prop where
  | init : ∀ (b : Nat) (prog : String) (args : List String),
      Reachable (NewWithBuffer b prog args)
  | step : ∀ (p q : Process), Reachable p → Step p q → Reachable q

/-- An all-successful start environment assigning pid 1234. -/
def sampleEnvOk : StartEnv :=
  { stdoutPipeErr := none, stderrPipeErr := none, stdinPipeErr := none,
    startErr := none, newPid := 1234 }

/-- A handle immediately after a successful start. -/
def startedSample : Process := (RunWithContext (New "sleep" ["5"]) sampleEnvOk).proc

/-- The started handle after a successful Pause. -/
def pausedSample : Process := (Pause startedSample none).1

/-- A kill environment in which SIGTERM succeeds and the process exits
within the timeout. -/
def gracefulExitEnv : KillEnv :=
  { sigtermErr := none, exitsWithinTimeout := true, killErr := none }

/-- A kill environment in which the force kill fails with errno 3. -/
def killFailEnv : KillEnv :=
  { sigtermErr := none, exitsWithinTimeout := false, killErr := some 3 }

/-- The started handle after the completion watcher's cleanup ran, i.e.
after the process terminated and was cleaned up. -/
def exitedSample : Process := (watcherCleanup startedSample).toOption.getD startedSample

/-- A Windows kill environment in which the gentle-stop open fails with
status 5 but the process exits within the timeout anyway. -/
def winStopFailsEnv : WinKillEnv :=
  { openTerminateErr := some 5, terminateErr := none, exitsWithinTimeout := true, killErr := none }

/-- A Windows kill environment in which the gentle stop is delivered and the
process exits within the timeout. -/
def winGracefulEnv : WinKillEnv :=
  { openTerminateErr := none, terminateErr := none, exitsWithinTimeout := true, killErr := none }

/-- The started handle after a graceful kill in which the process exited in
time. -/
def terminatedSample : Process :=
  (killWithSignal startedSample defaultKillTimeout true gracefulExitEnv).proc

/-- A handle with both channels closed and the closure recorded; the state
closeChannels produces on its first effective call. -/
def channelsClosedVersion (p : Process) : Process :=
  { p with stdoutClosed := true, stderrClosed := true, channelsClosed := true }

/-- RunWithContext on an already-running handle returns before any mutation:
the handle is returned unchanged with the already-running error and nothing
is spawned. -/
theorem run_rejected (p : Process) (env : StartEnv) (h : p.running = true) :
    RunWithContext p env = { proc := p, err := some .alreadyRunning, spawned := false } := by
  unfold RunWithContext
  simp [h]

/-- RunWithContext never changes the paused flag, and either leaves the
running flag as it was or sets it to true. -/
theorem run_proc_flags (p : Process) (env : StartEnv) :
    (RunWithContext p env).proc.paused = p.paused ∧
    ((RunWithContext p env).proc.running = p.running ∨
      (RunWithContext p env).proc.running = true) := by
  unfold RunWithContext
  cases hr : p.running <;>
    cases h1 : env.stdoutPipeErr <;>
      cases h2 : env.stderrPipeErr <;>
        cases h3 : env.stdinPipeErr <;>
          cases h4 : env.startErr <;>
            simp [hr, h1, h2, h3, h4]

/-- Pause keeps the running flag and only ever sets paused while running. -/
theorem pause_flags (p : Process) (e : Option OSError) :
    (Pause p e).1.running = p.running ∧
    ((Pause p e).1.paused = p.paused ∨
      ((Pause p e).1.paused = true ∧ p.running = true)) := by
  unfold Pause
  cases hr : p.running <;> cases hpp : p.paused <;> cases e <;> simp [hr, hpp]

/-- Resume keeps the running flag and either keeps or clears paused. -/
theorem resume_flags (p : Process) (e : Option OSError) :
    (Resume p e).1.running = p.running ∧
    ((Resume p e).1.paused = p.paused ∨ (Resume p e).1.paused = false) := by
  unfold Resume
  cases hr : p.running <;> cases hpp : p.paused <;> cases e <;> simp [hr, hpp]

/-- The Unix killWithSignal either leaves the handle untouched or clears
both the running and the paused flag together. -/
theorem kill_flags (p : Process) (t : Nat) (g : Bool) (env : KillEnv) :
    (killWithSignal p t g env).proc = p ∨
    (killWithSignal p t g env).proc = { p with running := false, paused := false } := by
  unfold killWithSignal forceKillStep
  cases hr : p.running <;> cases g <;> cases h1 : env.sigtermErr <;>
    cases h2 : env.exitsWithinTimeout <;> cases h3 : env.killErr <;>
      simp [hr, h1, h2, h3]

/-- The Windows killWithSignal either leaves the handle untouched or clears
both the running and the paused flag together. -/
theorem kill_flags_windows (p : Process) (t : Nat) (g : Bool) (env : WinKillEnv) :
    (killWithSignalWindows p t g env).proc = p ∨
    (killWithSignalWindows p t g env).proc = { p with running := false, paused := false } := by
  unfold killWithSignalWindows forceKillStep
  cases hr : p.running <;> cases g <;> cases h2 : env.exitsWithinTimeout <;>
    cases h3 : env.killErr <;> simp [hr, h2, h3]

/-- The completion watcher's cleanup always leaves the handle not running
and not paused. -/
theorem watcher_flags (p q : Process) (h : watcherCleanup p = Except.ok q) :
    q.running = false ∧ q.paused = false := by
  unfold watcherCleanup closeChannels at h
  cases hc : p.channelsClosed <;> cases ho : p.stdoutClosed <;> cases he : p.stderrClosed <;>
    simp [hc, ho, he] at h <;> simp [← h]

/-- closeChannels never changes the running or paused flag. -/
theorem close_flags (p q : Process) (h : closeChannels p = Except.ok q) :
    q.running = p.running ∧ q.paused = p.paused := by
  unfold closeChannels at h
  cases hc : p.channelsClosed <;> cases ho : p.stdoutClosed <;> cases he : p.stderrClosed <;>
    simp [hc, ho, he] at h <;> simp [← h]

/-- Every step preserves the invariant that paused implies running. -/
theorem step_preserves_pr (p q : Process) (hs : Step p q)
    (hp : p.paused = true → p.running = true) :
    q.paused = true → q.running = true := by
  cases hs with
  | runStep env =>
    intro hq
    rcases run_proc_flags p env with ⟨h1, h2 | h2⟩
    · rw [h2]; exact hp (h1 ▸ hq)
    · exact h2
  | pauseStep e =>
    intro hq
    rcases pause_flags p e with ⟨h1, h2 | ⟨_, h3⟩⟩
    · rw [h1]; exact hp (h2 ▸ hq)
    · rw [h1]; exact h3
  | resumeStep e =>
    intro hq
    rcases resume_flags p e with ⟨h1, h2 | h2⟩
    · rw [h1]; exact hp (h2 ▸ hq)
    · rw [hq] at h2; cases h2
  | killStep t g env =>
    intro hq
    rcases kill_flags p t g env with h | h
    · rw [h] at hq ⊢; exact hp hq
    · rw [h] at hq; cases hq
  | killStepWin t g env =>
    intro hq
    rcases kill_flags_windows p t g env with h | h
    · rw [h] at hq ⊢; exact hp hq
    · rw [h] at hq; cases hq
  | watcherStep a h =>
    intro hq
    rcases watcher_flags _ _ h with ⟨_, h2⟩
    rw [hq] at h2; cases h2
  | closeStep a h =>
    intro hq
    rcases close_flags _ _ h with ⟨h1, h2⟩
    rw [h1]; exact hp (h2 ▸ hq)

/-- A step that clears running (from a running state) also clears paused. -/
theorem step_running_clear_clears_paused (p q : Process) (hs : Step p q)
    (h1 : p.running = true) (h2 : q.running = false) : q.paused = false := by
  cases hs with
  | runStep env =>
    rw [run_rejected p env h1] at h2
    rw [h1] at h2; cases h2
  | pauseStep e =>
    rcases pause_flags p e with ⟨hf, _⟩
    rw [hf, h1] at h2; cases h2
  | resumeStep e =>
    rcases resume_flags p e with ⟨hf, _⟩
    rw [hf, h1] at h2; cases h2
  | killStep t g env =>
    rcases kill_flags p t g env with h | h
    · rw [h, h1] at h2; cases h2
    · rw [h]
  | killStepWin t g env =>
    rcases kill_flags_windows p t g env with h | h
    · rw [h, h1] at h2; cases h2
    · rw [h]
  | watcherStep a h =>
    exact (watcher_flags _ _ h).2
  | closeStep a h =>
    rcases close_flags _ _ h with ⟨hf, _⟩
    rw [hf, h1] at h2; cases h2

/-- A step that sets paused (from an unpaused state) happens while running
and leaves running set. -/
theorem step_paused_set_needs_running (p q : Process) (hs : Step p q)
    (h1 : p.paused = false) (h2 : q.paused = true) : q.running = true := by
  cases hs with
  | runStep env =>
    rcases run_proc_flags p env with ⟨hf, _⟩
    rw [hf, h1] at h2; cases h2
  | pauseStep e =>
    rcases pause_flags p e with ⟨hf, h | ⟨_, h⟩⟩
    · rw [h, h1] at h2; cases h2
    · rw [hf]; exact h
  | resumeStep e =>
    rcases resume_flags p e with ⟨hf, h | h⟩
    · rw [h, h1] at h2; cases h2
    · rw [h] at h2; cases h2
  | killStep t g env =>
    rcases kill_flags p t g env with h | h
    · rw [h, h1] at h2; cases h2
    · rw [h] at h2; cases h2
  | killStepWin t g env =>
    rcases kill_flags_windows p t g env with h | h
    · rw [h, h1] at h2; cases h2
    · rw [h] at h2; cases h2
  | watcherStep a h =>
    rw [(watcher_flags _ _ h).2] at h2; cases h2
  | closeStep a h =>
    rcases close_flags _ _ h with ⟨_, hf⟩
    rw [hf, h1] at h2; cases h2

/-- The paused handle is reachable: construct, start, pause. -/
theorem reachable_pausedSample : Reachable pausedSample :=
  Reachable.step startedSample pausedSample
    (Reachable.step (New "sleep" ["5"]) startedSample
      (Reachable.init 0 "sleep" ["5"])
      (Step.runStep (New "sleep" ["5"]) sampleEnvOk))
    (Step.pauseStep startedSample none)

/-- C1: evaluation of the code at the failing input. On a freshly started
handle (running = true at call time, so the NotRunning branch is not taken)
Wait returns the process-state field read BEFORE cmd.Wait runs — Go evaluates
the operands of `return cmd.ProcessState, cmd.Wait()` left to right — and no
cmd.Wait has completed yet, so the returned exit-status value is nil, not a
non-null value carrying the exit code as the claim (and Wait's own doc
comment) states. -/
theorem C1_wait_returns_nil_state :
    startedSample.running = true ∧
    Wait startedSample none = .ok (.completed none none) :=
  ⟨rfl, rfl⟩

/-- C2: evaluation of the code at the failing input. On a freshly
constructed, never-started handle, PID dereferences the nil cmd pointer and
faults instead of returning the sentinel -1 promised by the claim and by
PID's own doc comment. After a successful start it does return the spawned
process's (positive) pid. -/
theorem C2_pid_unstarted_faults :
    PID (New "sleep" ["5"]) = .error .nilPointerDereference ∧
    PID startedSample = .ok 1234 :=
  ⟨rfl, rfl⟩

/-- C3: KillWithTimeout always invokes the shared termination algorithm with
graceful = false, never delivers a graceful stop, and force-kills immediately
whenever the process is running; Kill and Terminate invoke the same algorithm
with graceful = true and the default timeout. -/
theorem C3_killWithTimeout_forced (p : Process) (t : Nat) (env : KillEnv) :
    KillWithTimeout p t env = killWithSignal p t false env ∧
    (KillWithTimeout p t env).gracefulStopDelivered = false ∧
    (p.running = true → (KillWithTimeout p t env).forceKillIssued = true) ∧
    Kill p env = killWithSignal p defaultKillTimeout true env ∧
    Terminate p env = killWithSignal p defaultKillTimeout true env := by
  refine ⟨rfl, ?_, ?_, rfl, rfl⟩
  · unfold KillWithTimeout killWithSignal forceKillStep
    cases hr : p.running <;> cases h3 : env.killErr <;> simp [hr, h3]
  · intro h
    unfold KillWithTimeout killWithSignal forceKillStep
    cases h3 : env.killErr <;> simp [h, h3]

/-- C3 witness: on the started handle, KillWithTimeout issues the force kill
at once. -/
theorem C3_killWithTimeout_forced_witness :
    startedSample.running = true ∧
    (KillWithTimeout startedSample 100 gracefulExitEnv).forceKillIssued = true :=
  ⟨rfl, (C3_killWithTimeout_forced startedSample 100 gracefulExitEnv).2.2.1 rfl⟩

/-- C4 counterexample: after the process has terminated and the completion
watcher has cleaned up (running = false, channels closed), a new start
attempt is NOT rejected — the guard only checks the running flag, so the
call succeeds and spawns a second OS process, contrary to the claim that a
start after termination is likewise rejected. -/
theorem C4_restart_after_exit_not_rejected :
    exitedSample.running = false ∧
    exitedSample.channelsClosed = true ∧
    (RunWithContext exitedSample sampleEnvOk).err = none ∧
    (RunWithContext exitedSample sampleEnvOk).spawned = true :=
  ⟨rfl, rfl, rfl, rfl⟩

/-- C4 (amended): a start attempt while running = true is rejected with the
AlreadyRunning error, spawns no OS process, and returns the handle with every
field unchanged; the guard checks only the running flag, so it does not
reject a start attempt after the process has terminated. -/
theorem C4_start_rejected_only_while_running (p : Process) (env : StartEnv)
    (h : p.running = true) :
    RunWithContext p env = { proc := p, err := some .alreadyRunning, spawned := false } :=
  run_rejected p env h

/-- C4 witness: the started handle rejects a second start unchanged. -/
theorem C4_start_rejected_only_while_running_witness :
    startedSample.running = true ∧
    RunWithContext startedSample sampleEnvOk =
      { proc := startedSample, err := some .alreadyRunning, spawned := false } :=
  ⟨rfl, C4_start_rejected_only_while_running startedSample sampleEnvOk rfl⟩

/-- C5: Kill, Terminate and KillWithTimeout all invoke the one shared
termination algorithm killWithSignal, parameterized only by timeout and
graceful; Kill and Terminate are both exactly killWithSignal with a
5-second timeout and graceful = true, hence equal to each other. -/
theorem C5_shared_termination_algorithm :
    ∀ (p : Process) (env : KillEnv),
      Kill p env = killWithSignal p (5 * second) true env ∧
      Terminate p env = killWithSignal p (5 * second) true env ∧
      (∀ t : Nat, KillWithTimeout p t env = killWithSignal p t false env) ∧
      Kill p env = Terminate p env :=
  fun _ _ => ⟨rfl, rfl, fun _ => rfl, rfl⟩

/-- C6 counterexample: on the Windows implementation, when the graceful-stop
primitive fails (OpenProcess returns an error, status 5) the call does not
return that error — the failure is tolerated — and when the process then
exits within the timeout the call returns success and sets running = false,
so neither "returns that error" nor "running stays true" holds. -/
theorem C6_windows_swallows_graceful_stop_failure :
    startedSample.running = true ∧
    winStopFailsEnv.openTerminateErr = some 5 ∧
    killWithSignalWindows startedSample defaultKillTimeout true winStopFailsEnv =
      { proc := { startedSample with running := false, paused := false }, err := none,
        gracefulStopDelivered := false, forceKillIssued := false } :=
  ⟨rfl, rfl, rfl⟩

/-- C6 (amended): on the Unix implementation a failed SIGTERM send and a
failed force kill are each returned to the caller with the handle unchanged
(running stays true, paused keeps its prior value), on every path; on the
Windows implementation a failed force kill is likewise returned with the
handle unchanged, but a failure of the graceful-stop primitive is tolerated
best-effort and not returned. -/
theorem C6_termination_failure_preserves_state (p : Process) (t : Nat)
    (env : KillEnv) (wenv : WinKillEnv) (hr : p.running = true) :
    (∀ e, env.sigtermErr = some e →
      killWithSignal p t true env =
        { proc := p, err := some (.sigtermFailed e), gracefulStopDelivered := false,
          forceKillIssued := false }) ∧
    (∀ e, env.killErr = some e →
      (killWithSignal p t false env).proc = p ∧
      (killWithSignal p t false env).err = some (.killFailed e)) ∧
    (∀ e, env.sigtermErr = none → env.exitsWithinTimeout = false → env.killErr = some e →
      (killWithSignal p t true env).proc = p ∧
      (killWithSignal p t true env).err = some (.killFailed e)) ∧
    (∀ e, wenv.killErr = some e →
      (killWithSignalWindows p t false wenv).proc = p ∧
      (killWithSignalWindows p t false wenv).err = some (.killFailed e)) ∧
    (∀ e, wenv.exitsWithinTimeout = false → wenv.killErr = some e →
      (killWithSignalWindows p t true wenv).proc = p ∧
      (killWithSignalWindows p t true wenv).err = some (.killFailed e)) := by
  refine ⟨?_, ?_, ?_, ?_, ?_⟩
  · intro e h
    unfold killWithSignal
    simp [hr, h]
  · intro e h
    unfold killWithSignal forceKillStep
    simp [hr, h]
  · intro e h1 h2 h3
    unfold killWithSignal forceKillStep
    simp [hr, h1, h2, h3]
  · intro e h
    unfold killWithSignalWindows forceKillStep
    simp [hr, h]
  · intro e h1 h2
    unfold killWithSignalWindows forceKillStep
    simp [hr, h1, h2]

/-- C6 witness: a failed force kill on the started handle is returned with
the handle unchanged. -/
theorem C6_termination_failure_preserves_state_witness :
    (killWithSignal startedSample 100 false killFailEnv).proc = startedSample ∧
    (killWithSignal startedSample 100 false killFailEnv).err = some (.killFailed 3) :=
  (C6_termination_failure_preserves_state startedSample 100 killFailEnv
    winStopFailsEnv rfl).2.1 3 rfl

/-- C7: with graceful = true on a running process, the gentle stop is
delivered first, and when the process exits before the timeout the call
returns success, never issues the forceful kill, and clears both running and
paused — on the Unix and the Windows implementation alike. -/
theorem C7_graceful_exit_no_escalation (p : Process) (t : Nat) (env : KillEnv)
    (wenv : WinKillEnv) (hr : p.running = true) :
    (env.sigtermErr = none → env.exitsWithinTimeout = true →
      killWithSignal p t true env =
        { proc := { p with running := false, paused := false }, err := none,
          gracefulStopDelivered := true, forceKillIssued := false }) ∧
    (wenv.openTerminateErr = none → wenv.exitsWithinTimeout = true →
      killWithSignalWindows p t true wenv =
        { proc := { p with running := false, paused := false }, err := none,
          gracefulStopDelivered := true, forceKillIssued := false }) := by
  constructor
  · intro h1 h2
    unfold killWithSignal
    simp [hr, h1, h2]
  · intro h1 h2
    unfold killWithSignalWindows
    simp [hr, h1, h2]

/-- C7 witness: a graceful kill of the started handle in an environment
where the process exits in time succeeds without escalation. -/
theorem C7_graceful_exit_no_escalation_witness :
    killWithSignal startedSample defaultKillTimeout true gracefulExitEnv =
      { proc := { startedSample with running := false, paused := false }, err := none,
        gracefulStopDelivered := true, forceKillIssued := false } :=
  (C7_graceful_exit_no_escalation startedSample defaultKillTimeout gracefulExitEnv
    winGracefulEnv rfl).1 rfl rfl

/-- C8: Pause succeeds only when running and not paused and on success sets
paused (so IsPaused reads true); Resume succeeds only when running and
paused and on success clears paused; Resume on an unpaused handle fails with
the invalid-state error and changes no flags. -/
theorem C8_pause_resume_contract (p : Process) (e : Option OSError) :
    ((Pause p e).2 = none →
      p.running = true ∧ p.paused = false ∧ IsPaused (Pause p e).1 = true) ∧
    (p.running = true → p.paused = false → e = none →
      Pause p e = ({ p with paused := true }, none)) ∧
    ((Resume p e).2 = none →
      p.running = true ∧ p.paused = true ∧ IsPaused (Resume p e).1 = false) ∧
    (p.running = true → p.paused = true → e = none →
      Resume p e = ({ p with paused := false }, none)) ∧
    (p.paused = false → Resume p e = (p, some .resumeInvalidState)) := by
  cases hr : p.running <;> cases hpp : p.paused <;> cases e <;>
    simp [Pause, Resume, IsPaused, hr, hpp]

/-- C8 witness: the pause-resume round trip on the started handle, plus a
Resume without prior Pause failing with the handle unchanged. -/
theorem C8_pause_resume_contract_witness :
    Pause startedSample none = ({ startedSample with paused := true }, none) ∧
    Resume pausedSample none = ({ pausedSample with paused := false }, none) ∧
    Resume startedSample none = (startedSample, some .resumeInvalidState) :=
  ⟨(C8_pause_resume_contract startedSample none).2.1 rfl rfl rfl,
   (C8_pause_resume_contract pausedSample none).2.2.2.1 rfl rfl rfl,
   (C8_pause_resume_contract startedSample none).2.2.2.2 rfl⟩

/-- C9: in every state reachable from a fresh handle by the public
operations and the watcher's cleanup, paused implies running; moreover any
single step that clears running also clears paused, and any step that sets
paused does so only while running stays true. -/
theorem C9_paused_implies_running :
    (∀ p : Process, Reachable p → p.paused = true → p.running = true) ∧
    (∀ p q : Process, Step p q → p.running = true → q.running = false →
      q.paused = false) ∧
    (∀ p q : Process, Step p q → p.paused = false → q.paused = true →
      q.running = true) := by
  refine ⟨?_, step_running_clear_clears_paused, step_paused_set_needs_running⟩
  intro p hre
  induction hre with
  | init b prog args => intro h; simp [NewWithBuffer] at h
  | step p q hp hs ih => exact step_preserves_pr p q hs ih

/-- C9 witness: the invariant evaluated on the reachable paused handle, the
transition lemma on a concrete kill step, and the paused-setting lemma on a
concrete pause step. -/
theorem C9_paused_implies_running_witness :
    pausedSample.running = true ∧
    terminatedSample.paused = false ∧
    pausedSample.running = true :=
  ⟨C9_paused_implies_running.1 pausedSample reachable_pausedSample rfl,
   C9_paused_implies_running.2.1 startedSample terminatedSample
     (Step.killStep startedSample defaultKillTimeout true gracefulExitEnv) rfl rfl,
   C9_paused_implies_running.2.2 startedSample pausedSample
     (Step.pauseStep startedSample none) rfl rfl⟩

/-- C10: the first invocation of closeChannels on a handle whose channels
are open and unguarded closes both channels and records the closure; every
invocation on a handle with the closure recorded is a silent no-op, and any
number of further invocations after the first neither faults nor changes the
state. -/
theorem C10_channels_closed_once (p : Process)
    (h1 : p.channelsClosed = false) (h2 : p.stdoutClosed = false)
    (h3 : p.stderrClosed = false) :
    closeChannels p = .ok (channelsClosedVersion p) ∧
    (∀ q : Process, q.channelsClosed = true → closeChannels q = .ok q) ∧
    (∀ n : Nat, closeN n (channelsClosedVersion p) = .ok (channelsClosedVersion p)) := by
  have hno : ∀ q : Process, q.channelsClosed = true → closeChannels q = .ok q := by
    intro q hq
    unfold closeChannels
    simp [hq]
  refine ⟨?_, hno, ?_⟩
  · unfold closeChannels
    simp [h1, h2, h3, channelsClosedVersion]
  · intro n
    induction n with
    | zero => rfl
    | succ n ih =>
      unfold closeN
      rw [hno (channelsClosedVersion p) rfl]
      exact ih

/-- C10 witness: on the started handle the first close closes both channels
and three further invocations are no-ops. -/
theorem C10_channels_closed_once_witness :
    closeChannels startedSample = .ok (channelsClosedVersion startedSample) ∧
    closeN 3 (channelsClosedVersion startedSample) =
      .ok (channelsClosedVersion startedSample) :=
  ⟨(C10_channels_closed_once startedSample rfl rfl rfl).1,
   (C10_channels_closed_once startedSample rfl rfl rfl).2.2 3⟩

end Processctrl
